import Mathlib

/-
  Verification development for the CarHive backend (Node.js/Express/Prisma).

  Shallow embedding conventions:
  * time instants are milliseconds since the epoch, modelled as `Int`
    (`new Date(x)` on an instant is the identity);
  * money and rates are exact rationals `ℚ`; JavaScript's
    `Math.round(x * 100) / 100` is `round2` below;
  * JavaScript truthiness on numeric fields (`a || d`) is modelled by using
    `0` for an absent/falsy field and testing `≠ 0` / taking a default;
  * Prisma queries over the booking table become list operations over the
    booking list of an explicit `Store`;
  * each controller returns its HTTP outcome as `Except ApiError`, paired
    with the possibly-updated store.
-/

namespace CarHive

/-- JS `Math.round(x * 100) / 100`: round half towards positive infinity at
two decimal places (`Math.round` is `⌊x + 1/2⌋` for all inputs). -/
def round2 (x : ℚ) : ℚ := (⌊x * 100 + 1/2⌋ : ℚ) / 100

/-- Milliseconds per day, `1000 * 60 * 60 * 24`. -/
def msPerDay : ℤ := 86400000

/-- Milliseconds per hour, `1000 * 60 * 60`. -/
def msPerHour : ℤ := 3600000

/-- Booking statuses appearing in the source
(`pending`, `pending_hold`, `confirmed`, `ready_for_pickup`, `checked_in`,
`active`, `completed`, `cancelled`). -/
inductive BookingStatus where
  | pending
  | pendingHold
  | confirmed
  | readyForPickup
  | checkedIn
  | active
  | completed
  | cancelled
deriving DecidableEq, Repr

/-- Payment status field of a booking. -/
inductive PaymentStatus where
  | pending
  | captured
  | paid
  | refunded
deriving DecidableEq, Repr

/-- Vehicle catalog statuses. -/
inductive VehicleStatus where
  | available
  | reserved
  | rented
  | maintenance
  | retired
deriving DecidableEq, Repr

/-- The committing set used by `availabilityService.isVehicleAvailable`:
`status: { in: ['pending_hold', 'confirmed', 'active'] }`. -/
def committingStatuses : List BookingStatus :=
  [.pendingHold, .confirmed, .active]

/-- A booking row.  `pickupOdometer` models the odometer reading stored in
`addons.pickupInspection.odometer` by the pickup checklist (the only part of
the `addons` JSON blob read back by the settlement code). -/
structure Booking where
  userId : ℕ
  vehicleId : ℕ
  locationPickupId : ℕ
  locationDropoffId : ℕ
  startDate : ℤ
  endDate : ℤ
  subtotal : ℚ
  taxes : ℚ
  fees : ℚ
  totalPrice : ℚ
  status : BookingStatus
  paymentStatus : PaymentStatus
  holdExpiresAt : Option ℤ
  pickupOdometer : Option ℚ
deriving DecidableEq, Repr

/-- A vehicle row; `dailyRate` is always numeric (the vehicle schema requires
`dailyRate: Joi.number().positive().required()`). -/
structure Vehicle where
  dailyRate : ℚ
  status : VehicleStatus
deriving DecidableEq, Repr

/-- A location row; the numeric fee/rate fields default to `0`, which encodes
an absent (falsy) field so that the source's `x || default` reads apply. -/
structure Location where
  taxRate : ℚ := 0
  oneWayFee : ℚ := 0
  minAgeThreshold : ℚ := 0
  youngDriverFeePerDay : ℚ := 0
  lateFeePerHour : ℚ := 0
  extraMileageRate : ℚ := 0
  fuelPricePerGallon : ℚ := 0
deriving DecidableEq, Repr

/-- A payment row created by `confirmBooking`. -/
structure Payment where
  bookingId : ℕ
  amount : ℚ
deriving DecidableEq, Repr

/-- The backing store: ids are list indices. -/
structure Store where
  vehicles : List Vehicle
  locations : List Location
  bookings : List Booking
  payments : List Payment
deriving DecidableEq, Repr

/-- The `where` filter of the Prisma query inside
`availabilityService.isVehicleAvailable`: same vehicle, status in the
committing set, and `startDate ≤ end AND endDate ≥ start`. -/
def bookingConflicts (vehicleId : ℕ) (s e : ℤ) (b : Booking) : Bool :=
  b.vehicleId == vehicleId
    && decide (b.status ∈ committingStatuses)
    && decide (b.startDate ≤ e)
    && decide (s ≤ b.endDate)

/-- Source `availabilityService.isVehicleAvailable(vehicleId, startDate, endDate)`:
fetch the conflicting bookings and return `conflicts.length === 0`.
The function takes no evaluation instant and reads no `holdExpiresAt`. -/
def isVehicleAvailable (bookings : List Booking) (vehicleId : ℕ) (s e : ℤ) :
    Bool :=
  (bookings.filter (bookingConflicts vehicleId s e)).length == 0

/-- Price rules, as dispatched on `rule.type` in
`pricingService.calculatePriceBreakdown`.  Seasonal rules carry their date
range (Prisma `DateTime` values are always truthy, so the source's
`rule.startDate && rule.endDate` guard always passes); numeric fields use
`0` for a falsy (absent or zero) value, matching the `if (rule.multiplier)`
style guards. -/
inductive PriceRule where
  | seasonal (ruleStart ruleEnd : ℤ) (multiplier flatAmount : ℚ)
  | weekday (weekdays : List ℕ) (multiplier : ℚ)
  | lengthOfRental (minDays : ℕ) (multiplier : ℚ)
deriving DecidableEq, Repr

/-- An add-on line as consumed by `calculatePriceBreakdown`
(`{ qty, price, perDay }` after resolution by the caller). -/
structure AddonLine where
  qty : ℚ
  price : ℚ
  perDay : Bool
deriving DecidableEq, Repr

/-- A promo price rule (`flatAmount` or `multiplier`, `0` for falsy). -/
structure PromoRule where
  flatAmount : ℚ
  multiplier : ℚ
deriving DecidableEq, Repr

/-- The argument object of `calculatePriceBreakdown`.  `startWeekday` is
`new Date(startDate).getDay()`: adding `i` calendar days to the start date
(`d.setDate(start.getDate() + i)`) yields weekday `(startWeekday + i) % 7`. -/
structure PricingInput where
  vehicle : Vehicle
  startDate : ℤ
  endDate : ℤ
  startWeekday : ℕ := 0
  addons : List AddonLine := []
  location : Location := {}
  priceRules : List PriceRule := []
  promoRule : Option PromoRule := none
  userAge : ℚ := 0
deriving DecidableEq, Repr

/-- Source `days = Math.max(1, Math.ceil((end - start) / msPerDay))`. -/
def pricingDays (inp : PricingInput) : ℕ :=
  (max 1 ⌈((inp.endDate - inp.startDate : ℤ) : ℚ) / (msPerDay : ℚ)⌉).toNat

/-- One iteration of the `priceRules.forEach` loop over the per-day rate
array. -/
def applyPriceRule (s e : ℤ) (startWeekday days : ℕ) (rates : List ℚ) :
    PriceRule → List ℚ
  | .seasonal rStart rEnd m f =>
      if ¬(e < rStart ∨ s > rEnd) then
        let r1 := if m ≠ 0 then rates.map (· * m) else rates
        if f ≠ 0 then r1.map (· + f) else r1
      else rates
  | .weekday weekdays m =>
      if m ≠ 0 then
        (List.range days).zipWith
          (fun i r => if (startWeekday + i) % 7 ∈ weekdays then r * m else r)
          rates
      else rates
  | .lengthOfRental minDays m =>
      if m ≠ 0 then
        if minDays ≠ 0 ∧ minDays ≤ days then rates.map (· * m) else rates
      else rates

/-- The per-day rate array after the `priceRules.forEach` loop: seeded with
the vehicle's daily rate, then each rule applied in list order. -/
def ratesAfterRules (inp : PricingInput) : List ℚ :=
  inp.priceRules.foldl
    (applyPriceRule inp.startDate inp.endDate inp.startWeekday
      (pricingDays inp))
    (List.replicate (pricingDays inp) inp.vehicle.dailyRate)

/-- Source `linePrice = perDay ? price * qty * days : price * qty`, with
`qty = a.qty || 1` and `price = a.price || 0`. -/
def addonLinePrice (days : ℕ) (a : AddonLine) : ℚ :=
  let qty := if a.qty = 0 then 1 else a.qty
  if a.perDay then a.price * qty * (days : ℚ) else a.price * qty

/-- The breakdown object returned by `calculatePriceBreakdown`
(`addonLinePrices` lists the `linePrice` of each addon line). -/
structure Breakdown where
  days : ℕ
  dailyRates : List ℚ
  subtotal : ℚ
  addonLinePrices : List ℚ
  addonsTotal : ℚ
  fees : ℚ
  youngDriverFee : ℚ
  taxes : ℚ
  promoDiscount : ℚ
  total : ℚ
deriving DecidableEq, Repr

/-- Source `subtotal = dayRates.reduce((s, r) => s + r, 0)`, accumulated without
rounding. -/
def pricingSubtotal (inp : PricingInput) : ℚ := (ratesAfterRules inp).sum

/-- The `linePrice` values of the resolved add-on lines. -/
def addonLinePrices (inp : PricingInput) : List ℚ :=
  inp.addons.map (addonLinePrice (pricingDays inp))

/-- Source `addonsTotal`, accumulated unrounded. -/
def pricingAddonsTotal (inp : PricingInput) : ℚ := (addonLinePrices inp).sum

/-- Source `oneWayFee` (the whole `fees` variable, since `fees = oneWayFee`). -/
def pricingOneWayFee (inp : PricingInput) : ℚ :=
  if 0 < inp.location.oneWayFee then inp.location.oneWayFee else 0

/-- Source `youngDriverFee = youngDriverPerDay * days` when the renter is younger
than the threshold (`minAgeThreshold || 25`, `youngDriverFeePerDay || 15`). -/
def pricingYoungDriverFee (inp : PricingInput) : ℚ :=
  let youngThreshold :=
    if inp.location.minAgeThreshold = 0 then 25 else inp.location.minAgeThreshold
  let youngDriverPerDay :=
    if inp.location.youngDriverFeePerDay = 0 then 15
    else inp.location.youngDriverFeePerDay
  if 0 < inp.userAge ∧ inp.userAge < youngThreshold then
    youngDriverPerDay * (pricingDays inp : ℚ)
  else 0

/-- Source `taxRate = location.taxRate || 0.1`. -/
def pricingTaxRate (inp : PricingInput) : ℚ :=
  if inp.location.taxRate = 0 then 1/10 else inp.location.taxRate

/-- Source `taxableBase = subtotal + addonsTotal + fees + youngDriverFee`, used
unrounded. -/
def pricingTaxableBase (inp : PricingInput) : ℚ :=
  pricingSubtotal inp + pricingAddonsTotal inp + pricingOneWayFee inp +
    pricingYoungDriverFee inp

/-- Source `taxes = Math.round(taxableBase * taxRate * 100) / 100`. -/
def pricingTaxes (inp : PricingInput) : ℚ :=
  round2 (pricingTaxableBase inp * pricingTaxRate inp)

/-- Source `totalBeforePromo`, rounded. -/
def pricingTotalBeforePromo (inp : PricingInput) : ℚ :=
  round2 (pricingSubtotal inp + pricingAddonsTotal inp + pricingOneWayFee inp +
    pricingYoungDriverFee inp + pricingTaxes inp)

/-- Source `promoDiscount`: a flat amount used as-is, or a rounded
`totalBeforePromo * (1 - 1/multiplier)`. -/
def pricingPromoDiscount (inp : PricingInput) : ℚ :=
  match inp.promoRule with
  | none => 0
  | some p =>
      if p.flatAmount ≠ 0 then p.flatAmount
      else if p.multiplier ≠ 0 then
        round2 (pricingTotalBeforePromo inp * (1 - 1 / p.multiplier))
      else 0

/-- Source `totalPrice = Math.max(0, round2(totalBeforePromo - promoDiscount))`. -/
def pricingTotal (inp : PricingInput) : ℚ :=
  max 0 (round2 (pricingTotalBeforePromo inp - pricingPromoDiscount inp))

/-- Source `pricingService.calculatePriceBreakdown`: seed per-day rates, apply the
price rules, sum the add-ons, add one-way and young-driver fees, compute
taxes, apply the promo rule, and return the breakdown.  Only `taxes`,
`totalBeforePromo`, the multiplier promo discount and the final total are
rounded during the computation; the remaining returned fields are rounded
only in the final object literal, and the returned `dailyRates` are not
rounded at all. -/
def calculatePriceBreakdown (inp : PricingInput) : Breakdown :=
  { days := pricingDays inp
    dailyRates := ratesAfterRules inp
    subtotal := round2 (pricingSubtotal inp)
    addonLinePrices := addonLinePrices inp
    addonsTotal := round2 (pricingAddonsTotal inp)
    fees := round2 (pricingOneWayFee inp)
    youngDriverFee := round2 (pricingYoungDriverFee inp)
    taxes := round2 (pricingTaxes inp)
    promoDiscount := round2 (pricingPromoDiscount inp)
    total := pricingTotal inp }

/-- Modelled from the spec: per-day rates rounded before summation. -/
def roundedDayRates (inp : PricingInput) : List ℚ :=
  (ratesAfterRules inp).map round2

/-- Modelled from the spec: subtotal rounded at its accumulation boundary. -/
def roundedSubtotal (inp : PricingInput) : ℚ :=
  round2 (roundedDayRates inp).sum

/-- Modelled from the spec: add-on line prices rounded as accumulated. -/
def roundedAddonLinePrices (inp : PricingInput) : List ℚ :=
  inp.addons.map (fun a => round2 (addonLinePrice (pricingDays inp) a))

/-- Modelled from the spec: add-ons total rounded at its boundary. -/
def roundedAddonsTotal (inp : PricingInput) : ℚ :=
  round2 (roundedAddonLinePrices inp).sum

/-- Modelled from the spec: fees rounded at their boundary. -/
def roundedOneWayFee (inp : PricingInput) : ℚ := round2 (pricingOneWayFee inp)

/-- Modelled from the spec: young-driver fee rounded at its boundary. -/
def roundedYoungDriverFee (inp : PricingInput) : ℚ :=
  round2 (pricingYoungDriverFee inp)

/-- Modelled from the spec: the taxable base rounded before taxing. -/
def roundedTaxableBase (inp : PricingInput) : ℚ :=
  round2 (roundedSubtotal inp + roundedAddonsTotal inp + roundedOneWayFee inp +
    roundedYoungDriverFee inp)

/-- Modelled from the spec: taxes computed from the rounded taxable base. -/
def roundedTaxes (inp : PricingInput) : ℚ :=
  round2 (roundedTaxableBase inp * pricingTaxRate inp)

/-- Modelled from the spec: total before promo over rounded components. -/
def roundedTotalBeforePromo (inp : PricingInput) : ℚ :=
  round2 (roundedSubtotal inp + roundedAddonsTotal inp + roundedOneWayFee inp +
    roundedYoungDriverFee inp + roundedTaxes inp)

/-- Modelled from the spec: the promo discount rounded at its boundary. -/
def roundedPromoDiscount (inp : PricingInput) : ℚ :=
  round2 (match inp.promoRule with
  | none => 0
  | some p =>
      if p.flatAmount ≠ 0 then p.flatAmount
      else if p.multiplier ≠ 0 then
        round2 (roundedTotalBeforePromo inp * (1 - 1 / p.multiplier))
      else 0)

/-- Modelled from the spec: the final total over rounded components. -/
def roundedTotal (inp : PricingInput) : ℚ :=
  max 0 (round2 (roundedTotalBeforePromo inp - roundedPromoDiscount inp))

/-- Modelled from the spec: the pricing pipeline with every monetary
accumulation (per-day rates, subtotal, add-on line prices and total, fees,
young-driver fee, the taxable base, taxes, total before promo, promo
discount, total) rounded to two decimals at its accumulation boundary,
before it is used in the next computation.  Stated only for comparison with
`calculatePriceBreakdown`. -/
def calculatePriceBreakdownRounded (inp : PricingInput) : Breakdown :=
  { days := pricingDays inp
    dailyRates := roundedDayRates inp
    subtotal := roundedSubtotal inp
    addonLinePrices := roundedAddonLinePrices inp
    addonsTotal := roundedAddonsTotal inp
    fees := roundedOneWayFee inp
    youngDriverFee := roundedYoungDriverFee inp
    taxes := roundedTaxes inp
    promoDiscount := roundedPromoDiscount inp
    total := roundedTotal inp }

/-- HTTP error outcomes of the booking controllers: `validation` (Joi 400),
`notFound` (404), `forbidden` (403), `badRequest` (400), `conflict` (409),
`expired` (410), `internal` (500). -/
inductive ApiError where
  | validation
  | notFound
  | forbidden
  | badRequest
  | conflict
  | expired
  | internal
deriving DecidableEq, Repr

/-- Source `bookingController.createBooking`: Joi validation (`startDate` not in the
past, `endDate` after `startDate`), vehicle present and `available`, both
locations present, then a conflict check over bookings with
`status: { in: ['confirmed', 'active'] }` only.  The pricing call references
the undefined identifiers `pickupLocationId`/`dropoffLocationId`; the thrown
`ReferenceError` is caught by the inner `try`, so the fallback
`{ total: vehicle.dailyRate }` is always used and the booking is created with
`status: 'pending'`.  Returns the new booking's id. -/
def createBooking (uid vehicleId locPick locDrop : ℕ) (s e now : ℤ)
    (st : Store) : Store × Except ApiError ℕ :=
  if ¬(now ≤ s ∧ s < e) then (st, .error .validation)
  else
    match st.vehicles[vehicleId]? with
    | none => (st, .error .notFound)
    | some v =>
        if v.status ≠ .available then (st, .error .badRequest)
        else if (st.locations[locPick]?).isNone then (st, .error .notFound)
        else if (st.locations[locDrop]?).isNone then (st, .error .notFound)
        else
          let conflicting := st.bookings.filter fun b =>
            b.vehicleId == vehicleId
              && decide (b.status = .confirmed ∨ b.status = .active)
              && decide (b.startDate ≤ e) && decide (s ≤ b.endDate)
          if 0 < conflicting.length then (st, .error .conflict)
          else
            let nb : Booking :=
              { userId := uid, vehicleId := vehicleId,
                locationPickupId := locPick, locationDropoffId := locDrop,
                startDate := s, endDate := e,
                subtotal := 0, taxes := 0, fees := 0,
                totalPrice := v.dailyRate,
                status := .pending, paymentStatus := .pending,
                holdExpiresAt := none, pickupOdometer := none }
            ({ st with bookings := st.bookings ++ [nb] },
              .ok st.bookings.length)

/-- Source `bookingController.holdBooking`: Joi validation, then
`availabilityService.isVehicleAvailable`; if available, the pricing call at
line 623 references the undefined identifiers
`pickupLocationId`/`dropoffLocationId` and throws a `ReferenceError` that is
only caught by the outer handler, so the request ends in a 500 and no hold
is ever created. -/
def holdBooking (vehicleId : ℕ) (s e now : ℤ) (st : Store) :
    Store × Except ApiError ℕ :=
  if ¬(now ≤ s ∧ s < e) then (st, .error .validation)
  else if isVehicleAvailable st.bookings vehicleId s e = false then
    (st, .error .conflict)
  else (st, .error .internal)

/-- Source `bookingController.confirmBooking`: looks up the booking, checks
ownership, requires `status = 'pending_hold'`; a hold whose `holdExpiresAt`
has passed is set to `cancelled` and the call fails with 410; otherwise a
payment record for `booking.totalPrice` is created and the booking becomes
`confirmed` / `paymentStatus: 'captured'`.  Returns the payment's id. -/
def confirmBooking (uid : ℕ) (isAdmin : Bool) (bookingId : ℕ) (now : ℤ)
    (st : Store) : Store × Except ApiError ℕ :=
  match st.bookings[bookingId]? with
  | none => (st, .error .notFound)
  | some b =>
      if b.userId ≠ uid ∧ isAdmin = false then (st, .error .forbidden)
      else if b.status ≠ .pendingHold then (st, .error .badRequest)
      else
        match b.holdExpiresAt with
        | some t =>
            if t < now then
              ({ st with
                  bookings := st.bookings.set bookingId
                    { b with status := .cancelled } },
                .error .expired)
            else
              ({ st with
                  bookings := st.bookings.set bookingId
                    { b with status := .confirmed,
                             paymentStatus := .captured },
                  payments := st.payments ++
                    [{ bookingId := bookingId, amount := b.totalPrice }] },
                .ok st.payments.length)
        | none =>
            ({ st with
                bookings := st.bookings.set bookingId
                  { b with status := .confirmed,
                           paymentStatus := .captured },
                payments := st.payments ++
                  [{ bookingId := bookingId, amount := b.totalPrice }] },
              .ok st.payments.length)

/-- The `validStatuses` list of `bookingController.updateBookingStatus`. -/
def validStatuses : List BookingStatus :=
  [.pending, .confirmed, .active, .completed, .cancelled]

/-- Source `bookingController.updateBookingStatus` (admin endpoint): rejects a
status outside `validStatuses`, requires the booking to exist, and then
writes the status directly — with no availability or source-state check. -/
def updateBookingStatus (bookingId : ℕ) (status : BookingStatus)
    (st : Store) : Store × Except ApiError Unit :=
  if status ∉ validStatuses then (st, .error .badRequest)
  else
    match st.bookings[bookingId]? with
    | none => (st, .error .notFound)
    | some b =>
        ({ st with
            bookings := st.bookings.set bookingId { b with status := status } },
          .ok ())

/-- Source `bookingController.cancelBooking`: ownership check, cancellable unless
the status is `completed`, `cancelled` or `active`; within 48 hours of the
contracted start (`hoursBeforeStart ≤ 48`) the fee is half the total and the
rest is refundable, otherwise the full total is refundable.  The booking
becomes `cancelled`, and a vehicle held by a `confirmed`/`ready_for_pickup`
booking reverts to `available`.  Returns `(cancellationFee, refundAmount)`. -/
def cancelBooking (uid bookingId : ℕ) (now : ℤ) (st : Store) :
    Store × Except ApiError (ℚ × ℚ) :=
  match st.bookings[bookingId]? with
  | none => (st, .error .notFound)
  | some b =>
      if b.userId ≠ uid then (st, .error .forbidden)
      else if b.status = .completed ∨ b.status = .cancelled ∨
          b.status = .active then (st, .error .badRequest)
      else
        let hoursBeforeStart : ℚ :=
          ((b.startDate - now : ℤ) : ℚ) / (msPerHour : ℚ)
        let cancellationFee : ℚ :=
          if hoursBeforeStart ≤ 48 then b.totalPrice * (1/2) else 0
        let refundAmount : ℚ :=
          if hoursBeforeStart ≤ 48 then b.totalPrice - cancellationFee
          else b.totalPrice
        let vehicles' :=
          if b.status = .confirmed ∨ b.status = .readyForPickup then
            match st.vehicles[b.vehicleId]? with
            | some v => st.vehicles.set b.vehicleId { v with status := .available }
            | none => st.vehicles
          else st.vehicles
        ({ st with
            vehicles := vehicles',
            bookings := st.bookings.set bookingId
              { b with status := .cancelled } },
          .ok (cancellationFee, refundAmount))

/-- Source `bookingController.modifyBooking`: ownership check, modifiable only from
`pending`/`confirmed`/`pending_hold`.  When dates are supplied it validates
interval ordering and that the start is not in the past, then recomputes
`subtotal = days * dailyRate`, `taxes = subtotal * 0.09`, `fees = 5.00`
and the total — it performs no availability re-check against the new
interval.  Location arguments are validated for existence.  The status field
is never written. -/
def modifyBooking (uid : ℕ) (isAdmin : Bool) (bookingId : ℕ)
    (startDate endDate : Option ℤ) (locPick locDrop : Option ℕ) (now : ℤ)
    (st : Store) : Store × Except ApiError Unit :=
  match st.bookings[bookingId]? with
  | none => (st, .error .notFound)
  | some b =>
      if b.userId ≠ uid ∧ isAdmin = false then (st, .error .forbidden)
      else if b.status ∉ [BookingStatus.pending, .confirmed, .pendingHold] then
        (st, .error .badRequest)
      else
        let ns := startDate.getD b.startDate
        let ne' := endDate.getD b.endDate
        if startDate.isSome ∨ endDate.isSome then
          if ns ≥ ne' then (st, .error .badRequest)
          else if ns < now then (st, .error .badRequest)
          else
            match st.vehicles[b.vehicleId]? with
            | none => (st, .error .internal)
            | some v =>
                let days : ℕ :=
                  (⌈((ne' - ns : ℤ) : ℚ) / (msPerDay : ℚ)⌉).toNat
                let subtotal : ℚ := (days : ℚ) * v.dailyRate
                let taxes : ℚ := subtotal * (9/100)
                let fees : ℚ := 5
                let totalPrice : ℚ := subtotal + taxes + fees
                if locPick.isSome ∧ (st.locations[locPick.getD 0]?).isNone then
                  (st, .error .badRequest)
                else if locDrop.isSome ∧ (st.locations[locDrop.getD 0]?).isNone then
                  (st, .error .badRequest)
                else
                  ({ st with
                      bookings := st.bookings.set bookingId
                        { b with
                            startDate := ns, endDate := ne',
                            subtotal := subtotal, taxes := taxes,
                            fees := fees, totalPrice := totalPrice,
                            locationPickupId := locPick.getD b.locationPickupId,
                            locationDropoffId := locDrop.getD b.locationDropoffId } },
                    .ok ())
        else
          if locPick.isSome ∧ (st.locations[locPick.getD 0]?).isNone then
            (st, .error .badRequest)
          else if locDrop.isSome ∧ (st.locations[locDrop.getD 0]?).isNone then
            (st, .error .badRequest)
          else
            ({ st with
                bookings := st.bookings.set bookingId
                  { b with
                      locationPickupId := locPick.getD b.locationPickupId,
                      locationDropoffId := locDrop.getD b.locationDropoffId } },
              .ok ())

/-- Source `bookingController.extendBooking`: only from `active`; the new end must
be after the current end (a falsy `additionalDays`, i.e. `0`, is treated as
absent); the conflict query counts bookings in
`['confirmed', 'active', 'ready_for_pickup']` overlapping
`[currentEnd, newEnd]` and rejects when more than one is found (the booking
itself is included); charges `additionalDaysCount * dailyRate` on top of the
total. -/
def extendBooking (uid : ℕ) (isAdmin : Bool) (bookingId : ℕ)
    (newEndDate : Option ℤ) (additionalDays : Option ℤ) (st : Store) :
    Store × Except ApiError Unit :=
  match st.bookings[bookingId]? with
  | none => (st, .error .notFound)
  | some b =>
      if b.userId ≠ uid ∧ isAdmin = false then (st, .error .forbidden)
      else if b.status ≠ .active then (st, .error .badRequest)
      else
        let currentEnd := b.endDate
        let newEnd? : Option ℤ :=
          match newEndDate, additionalDays with
          | some d, _ => some d
          | none, some k =>
              if k = 0 then none else some (currentEnd + k * msPerDay)
          | none, none => none
        match newEnd? with
        | none => (st, .error .badRequest)
        | some newEnd =>
            if newEnd ≤ currentEnd then (st, .error .badRequest)
            else
              let conflicting := st.bookings.filter fun b2 =>
                b2.vehicleId == b.vehicleId
                  && decide (b2.status = .confirmed ∨ b2.status = .active ∨
                      b2.status = .readyForPickup)
                  && decide (b2.startDate ≤ newEnd)
                  && decide (currentEnd ≤ b2.endDate)
              if 1 < conflicting.length then (st, .error .conflict)
              else
                match st.vehicles[b.vehicleId]? with
                | none => (st, .error .internal)
                | some v =>
                    let additionalDaysCount : ℤ :=
                      ⌈((newEnd - currentEnd : ℤ) : ℚ) / (msPerDay : ℚ)⌉
                    let additionalPrice : ℚ :=
                      v.dailyRate * (additionalDaysCount : ℚ)
                    ({ st with
                        bookings := st.bookings.set bookingId
                          { b with
                              endDate := newEnd,
                              totalPrice := b.totalPrice + additionalPrice } },
                      .ok ())

/-- The settlement figures assembled by `returnChecklist` (the
`calculations` object stored under `addons.returnInspection`). -/
structure Settlement where
  lateFee : ℚ
  extraMileageCost : ℚ
  fuelCost : ℚ
  damageCost : ℚ
  totalAdjustments : ℚ
  finalTotal : ℚ
deriving DecidableEq, Repr

/-- Source `bookingController.returnChecklist`: only from `active`.  Late fee:
`Math.ceil` of the hours past the contracted end times
`pickupLocation?.lateFeePerHour || 10`.  Extra mileage (only when both
odometer readings are truthy): miles beyond `rentalDays * 100` at
`extraMileageRate || 0.5`.  Fuel: `(1 - fuelLevel) * (fuelPricePerGallon
|| 4)` when a fuel level below `1.0` is reported.  Damage cost only when
damage is flagged.  The booking's total is replaced by
`totalPrice + lateFee + extraMileageCost + fuelCost + damageCost` and the
booking completes; the vehicle goes to `maintenance` on damage, else back to
`available`. -/
def returnChecklist (uid : ℕ) (isAdmin : Bool) (bookingId : ℕ) (now : ℤ)
    (odometer fuelLevel : Option ℚ) (damage : Bool) (damageCost : ℚ)
    (st : Store) : Store × Except ApiError Settlement :=
  match st.bookings[bookingId]? with
  | none => (st, .error .notFound)
  | some b =>
      if b.userId ≠ uid ∧ isAdmin = false then (st, .error .forbidden)
      else if b.status ≠ .active then (st, .error .badRequest)
      else
        let rentalDays : ℤ :=
          max 1 ⌈((b.endDate - b.startDate : ℤ) : ℚ) / (msPerDay : ℚ)⌉
        let pickupLoc := st.locations[b.locationPickupId]?
        let lateFee : ℚ :=
          if b.endDate < now then
            let lateHours : ℤ := ⌈((now - b.endDate : ℤ) : ℚ) / (msPerHour : ℚ)⌉
            let lateFeePerHour : ℚ :=
              match pickupLoc with
              | some l => if l.lateFeePerHour = 0 then 10 else l.lateFeePerHour
              | none => 10
            (lateHours : ℚ) * lateFeePerHour
          else 0
        let extraMileageCost : ℚ :=
          match b.pickupOdometer, odometer with
          | some po, some od =>
              if po ≠ 0 ∧ od ≠ 0 then
                let expectedMiles : ℚ := (rentalDays : ℚ) * 100
                let actualMiles : ℚ := od - po
                let extraMiles : ℚ := max 0 (actualMiles - expectedMiles)
                let mileageRate : ℚ :=
                  match pickupLoc with
                  | some l => if l.extraMileageRate = 0 then 1/2
                      else l.extraMileageRate
                  | none => 1/2
                extraMiles * mileageRate
              else 0
          | _, _ => 0
        let fuelCost : ℚ :=
          match fuelLevel with
          | some fl =>
              if fl < 1 then
                let fuelPricePerGallon : ℚ :=
                  match pickupLoc with
                  | some l => if l.fuelPricePerGallon = 0 then 4
                      else l.fuelPricePerGallon
                  | none => 4
                (1 - fl) * fuelPricePerGallon
              else 0
          | none => 0
        let damageCostValue : ℚ := if damage then damageCost else 0
        let totalAdjustments :=
          lateFee + extraMileageCost + fuelCost + damageCostValue
        let finalTotal := b.totalPrice + totalAdjustments
        let vehicles' :=
          match st.vehicles[b.vehicleId]? with
          | some v => st.vehicles.set b.vehicleId
              { v with status := if damage then .maintenance else .available }
          | none => st.vehicles
        ({ st with
            vehicles := vehicles',
            bookings := st.bookings.set bookingId
              { b with status := .completed, totalPrice := finalTotal } },
          .ok { lateFee := lateFee, extraMileageCost := extraMileageCost,
                fuelCost := fuelCost, damageCost := damageCostValue,
                totalAdjustments := totalAdjustments,
                finalTotal := finalTotal })

/-- One invocation of an exposed booking operation (the request data of one
controller call); the store-to-store effect is `applyOp`. -/
inductive BookingOp where
  | create (uid vehicleId locPick locDrop : ℕ) (s e now : ℤ)
  | hold (vehicleId : ℕ) (s e now : ℤ)
  | confirm (uid : ℕ) (isAdmin : Bool) (bookingId : ℕ) (now : ℤ)
  | setStatus (bookingId : ℕ) (status : BookingStatus)
  | modify (uid : ℕ) (isAdmin : Bool) (bookingId : ℕ)
      (startDate endDate : Option ℤ) (locPick locDrop : Option ℕ) (now : ℤ)
  | extend (uid : ℕ) (isAdmin : Bool) (bookingId : ℕ)
      (newEndDate additionalDays : Option ℤ)
  | cancel (uid bookingId : ℕ) (now : ℤ)
deriving DecidableEq, Repr

/-- The store-to-store effect of one exposed booking operation. -/
def applyOp (st : Store) : BookingOp → Store
  | .create uid v lp ld s e now => (createBooking uid v lp ld s e now st).1
  | .hold v s e now => (holdBooking v s e now st).1
  | .confirm uid adm id now => (confirmBooking uid adm id now st).1
  | .setStatus id status => (updateBookingStatus id status st).1
  | .modify uid adm id sd ed lp ld now =>
      (modifyBooking uid adm id sd ed lp ld now st).1
  | .extend uid adm id ned ad => (extendBooking uid adm id ned ad st).1
  | .cancel uid id now => (cancelBooking uid id now st).1

/-- Predicate: `st` is reachable from `init` by a sequence of exposed booking
operations. -/
def ReachableFrom (init st : Store) : Prop :=
  ∃ ops : List BookingOp, st = ops.foldl applyOp init

/-- Two bookings clash when they are for the same vehicle, both committing,
and their intervals overlap under closed-interval semantics. -/
def bookingsClash (b1 b2 : Booking) : Bool :=
  b1.vehicleId == b2.vehicleId
    && decide (b1.status ∈ committingStatuses)
    && decide (b2.status ∈ committingStatuses)
    && decide (b1.startDate ≤ b2.endDate)
    && decide (b2.startDate ≤ b1.endDate)

/-- No two bookings of the list clash (the at-most-one-committing-reservation
invariant). -/
def committingOverlapFree : List Booking → Bool
  | [] => true
  | b :: rest => rest.all (fun b2 => !bookingsClash b b2) &&
      committingOverlapFree rest

/-- A rational with at most two decimal places. -/
def TwoDec (x : ℚ) : Prop := ∃ n : ℤ, x = (n : ℚ) / 100

/-- A booking fixture used by the concrete test stores below. -/
def baseBooking : Booking :=
  { userId := 1, vehicleId := 0, locationPickupId := 0, locationDropoffId := 0,
    startDate := 0, endDate := 100, subtotal := 0, taxes := 0, fees := 0,
    totalPrice := 200, status := .pending, paymentStatus := .pending,
    holdExpiresAt := none, pickupOdometer := none }

/-- A `pending_hold` booking for vehicle `1` on `[0, 100]` whose hold expired
at instant `5`. -/
def expiredHoldBooking : Booking :=
  { baseBooking with
    vehicleId := 1
    status := .pendingHold
    holdExpiresAt := some 5 }

/-- A store holding only the expired hold of `expiredHoldBooking`. -/
def expiredHoldStore : Store :=
  { vehicles := [{ dailyRate := 50, status := .available }],
    locations := [{}], bookings := [expiredHoldBooking], payments := [] }

/-- The initial store for the reachability trace: one available vehicle, one
location, no bookings, no payments. -/
def traceInit : Store :=
  { vehicles := [{ dailyRate := 50, status := .available }],
    locations := [{}], bookings := [], payments := [] }

/-- Two `createBooking` calls for the same vehicle and interval (the conflict
check ignores non-`confirmed`/`active` bookings), then two admin
`updateBookingStatus` calls promoting both to committing statuses. -/
def traceOps : List BookingOp :=
  [.create 1 0 0 0 100 200 0, .create 2 0 0 0 100 200 0,
   .setStatus 0 .confirmed, .setStatus 1 .active]

/-- The store reached by `traceOps` from `traceInit`. -/
def traceFinal : Store := traceOps.foldl applyOp traceInit

/-- A store whose only booking is already `confirmed`. -/
def confirmedStore : Store :=
  { vehicles := [{ dailyRate := 50, status := .available }],
    locations := [{}],
    bookings := [{ baseBooking with status := .confirmed }], payments := [] }

/-- Scenario A input: daily rate 50, a 3-day interval, no rules, no add-ons,
no location fees, 10% tax rate, renter above the young-driver threshold. -/
def scenarioA : PricingInput :=
  { vehicle := { dailyRate := 50, status := .available },
    startDate := 0, endDate := 3 * 86400000,
    location := { taxRate := 1/10 }, userAge := 30 }

/-- Scenario B input: scenario A plus one seasonal rule with multiplier 1.2
whose date range covers the whole interval. -/
def scenarioB : PricingInput :=
  { scenarioA with priceRules := [.seasonal 0 (3 * 86400000) (12/10) 0] }

/-- Pricing input with a three-decimal daily rate (10.049) for one day and
the default 10% tax rate: the unrounded subtotal 10.049 flows into the tax
computation. -/
def threeDecimalInput : PricingInput :=
  { vehicle := { dailyRate := 10049/1000, status := .available },
    startDate := 0, endDate := 86400000, userAge := 30 }

/-- A store ready for cancellation: a `pending` booking with total 200 whose
contracted start is 24 hours after instant 0. -/
def cancelStore : Store :=
  { vehicles := [{ dailyRate := 50, status := .available }],
    locations := [{}],
    bookings := [{ baseBooking with
      startDate := 24 * 3600000
      endDate := 48 * 3600000 }],
    payments := [] }

/-- A store ready for return: an `active` booking with total 200 whose
contracted end is instant 0 (location uses the default late-fee rate). -/
def returnStore : Store :=
  { vehicles := [{ dailyRate := 50, status := .available }],
    locations := [{}],
    bookings := [{ baseBooking with
      startDate := -86400000
      endDate := 0
      status := .active }],
    payments := [] }

/-- A store for modification: booking 0 is `pending` on days 10–11 of vehicle
0, booking 1 is `confirmed` on days 20–30 of the same vehicle. -/
def modifyStore : Store :=
  { vehicles := [{ dailyRate := 50, status := .available }],
    locations := [{}],
    bookings :=
      [{ baseBooking with
         startDate := 10 * 86400000
         endDate := 11 * 86400000 },
       { baseBooking with
         userId := 2
         startDate := 20 * 86400000
         endDate := 30 * 86400000
         status := .confirmed }],
    payments := [] }

/-- A store with one unexpired `pending_hold` for vehicle 0 on `[100, 200]`
(hold expires at instant 1000). -/
def pendingHoldStore : Store :=
  { vehicles := [{ dailyRate := 50, status := .available }],
    locations := [{}],
    bookings := [{ baseBooking with
      startDate := 100
      endDate := 200
      status := .pendingHold
      holdExpiresAt := some 1000 }],
    payments := [] }

/-- Rounding to two decimals fixes a rational that already has at most two
decimals. -/
theorem round2_eq_self_of_twoDec {x : ℚ} (h : TwoDec x) : round2 x = x := by
  obtain ⟨n, rfl⟩ := h
  unfold round2
  have h100 : ((n : ℚ) / 100) * 100 = (n : ℚ) := by
    field_simp
  have hfl : ⌊(n : ℚ) + 1/2⌋ = n := by
    rw [add_comm, Int.floor_add_int]
    have h0 : ⌊(1/2 : ℚ)⌋ = 0 := by
      rw [Int.floor_eq_zero_iff]
      constructor <;> norm_num
    rw [h0, zero_add]
  rw [h100, hfl]

/-- Sums of two-decimal rationals have two decimals. -/
theorem TwoDec.add {x y : ℚ} (hx : TwoDec x) (hy : TwoDec y) :
    TwoDec (x + y) := by
  obtain ⟨m, rfl⟩ := hx
  obtain ⟨n, rfl⟩ := hy
  exact ⟨m + n, by push_cast; ring⟩

/-- Zero has two decimals. -/
theorem twoDec_zero : TwoDec 0 := ⟨0, by norm_num⟩

/-- A list sum of two-decimal rationals has two decimals. -/
theorem twoDec_sum {l : List ℚ} (h : ∀ x ∈ l, TwoDec x) : TwoDec l.sum := by
  induction l with
  | nil => exact twoDec_zero
  | cons x xs ih =>
      rw [List.sum_cons]
      exact (h x (by simp)).add (ih fun y hy => h y (by simp [hy]))

/-- The result of `round2` has two decimals. -/
theorem twoDec_round2 (x : ℚ) : TwoDec (round2 x) := ⟨⌊x * 100 + 1/2⌋, rfl⟩

/-- Rounding twice equals rounding once. -/
theorem round2_round2 (x : ℚ) : round2 (round2 x) = round2 x :=
  round2_eq_self_of_twoDec (twoDec_round2 x)

/-- A natural multiple of a two-decimal rational has two decimals. -/
theorem TwoDec.mul_natCast {x : ℚ} (h : TwoDec x) (n : ℕ) :
    TwoDec (x * (n : ℚ)) := by
  obtain ⟨m, rfl⟩ := h
  exact ⟨m * n, by push_cast; ring⟩

/-- Mapping `round2` over a list of two-decimal rationals is the identity. -/
theorem map_round2_of_twoDec {l : List ℚ} (h : ∀ x ∈ l, TwoDec x) :
    l.map round2 = l := by
  induction l with
  | nil => rfl
  | cons x xs ih =>
      rw [List.map_cons, round2_eq_self_of_twoDec (h x (by simp)),
        ih fun y hy => h y (by simp [hy])]

/-- C1: `isVehicleAvailable` returns `false` exactly when some booking for the
vehicle has a status in the committing set `{pending_hold, confirmed, active}`
and overlaps the queried interval under closed-interval semantics
(`otherStart ≤ end` and `otherEnd ≥ start`); bookings in any other status
never make the vehicle unavailable. -/
theorem isVehicleAvailable_eq_false_iff (bookings : List Booking)
    (vehicleId : ℕ) (s e : ℤ) :
    isVehicleAvailable bookings vehicleId s e = false ↔
      ∃ b ∈ bookings, b.vehicleId = vehicleId ∧
        b.status ∈ committingStatuses ∧ b.startDate ≤ e ∧ s ≤ b.endDate := by
  constructor
  · intro h
    have h1 : bookings.filter (bookingConflicts vehicleId s e) ≠ [] := by
      intro hnil
      simp [isVehicleAvailable, hnil] at h
    rcases List.exists_mem_of_ne_nil _ h1 with ⟨b, hb⟩
    have hmem := List.mem_of_mem_filter hb
    have hp := List.of_mem_filter hb
    refine ⟨b, hmem, ?_⟩
    simp only [bookingConflicts, Bool.and_eq_true, beq_iff_eq,
      decide_eq_true_eq] at hp
    exact ⟨hp.1.1.1, hp.1.1.2, hp.1.2, hp.2⟩
  · rintro ⟨b, hmem, h1, h2, h3, h4⟩
    have hp : bookingConflicts vehicleId s e b = true := by
      simp [bookingConflicts, h1, h2, h3, h4]
    have hf : b ∈ bookings.filter (bookingConflicts vehicleId s e) :=
      List.mem_filter.2 ⟨hmem, hp⟩
    have hne : (bookings.filter (bookingConflicts vehicleId s e)).length ≠ 0 := by
      intro h0
      rw [List.length_eq_zero] at h0
      simp [h0] at hf
    simp [isVehicleAvailable, hne]

/-- C2 counterexample: a `pending_hold` booking whose `holdExpiresAt` (instant
5) lies before the evaluation instant (10) still makes `isVehicleAvailable`
report the vehicle unavailable — no lazy expired-hold check exists on the
availability read path. -/
theorem expiredHold_blocks_availability :
    expiredHoldBooking.status = BookingStatus.pendingHold ∧
    expiredHoldBooking.holdExpiresAt = some 5 ∧ (5 : ℤ) < 10 ∧
    isVehicleAvailable expiredHoldStore.bookings 1 0 100 = false :=
  ⟨rfl, rfl, by norm_num, by decide⟩

/-- C2, amended: `isVehicleAvailable` ignores `holdExpiresAt` entirely, so an
expired hold keeps blocking availability; the only expired-hold reclamation
is the lazy check inside `confirmBooking`, which cancels the hold and fails
with 410. -/
theorem availability_ignores_holdExpiresAt :
    (∀ (bookings : List Booking) (f : Booking → Option ℤ) (vehicleId : ℕ)
        (s e : ℤ),
      isVehicleAvailable
          (bookings.map fun b => { b with holdExpiresAt := f b })
          vehicleId s e =
        isVehicleAvailable bookings vehicleId s e) ∧
    (∀ (st : Store) (uid : ℕ) (isAdmin : Bool) (bookingId : ℕ) (b : Booking)
        (t now : ℤ),
      st.bookings[bookingId]? = some b → (b.userId = uid ∨ isAdmin = true) →
      b.status = .pendingHold → b.holdExpiresAt = some t → t < now →
      confirmBooking uid isAdmin bookingId now st =
        ({ st with
            bookings :=
              st.bookings.set bookingId { b with status := .cancelled } },
          .error .expired)) := by
  constructor
  · intro bookings f vehicleId s e
    simp only [isVehicleAvailable]
    have hlen : ∀ l : List Booking,
        ((l.map fun b => { b with holdExpiresAt := f b }).filter
          (bookingConflicts vehicleId s e)).length =
        (l.filter (bookingConflicts vehicleId s e)).length := by
      intro l
      induction l with
      | nil => rfl
      | cons b bs ih =>
          have hb : bookingConflicts vehicleId s e
              { b with holdExpiresAt := f b } =
              bookingConflicts vehicleId s e b := rfl
          simp only [List.map_cons, List.filter_cons, hb]
          cases bookingConflicts vehicleId s e b <;> simp [ih]
    rw [hlen]
  · intro st uid isAdmin bookingId b t now h1 h2 h3 h4 h5
    have howner : ¬(b.userId ≠ uid ∧ isAdmin = false) := by
      rcases h2 with h | h
      · exact fun hc => hc.1 h
      · intro hc
        rw [h] at hc
        exact absurd hc.2 (by simp)
    simp only [confirmBooking, h1, h3, h4]
    rw [if_neg howner, if_neg (by simp), if_pos h5]

/-- C2 amended, witness: instantiated on the expired-hold store — changing
`holdExpiresAt` does not change the availability answer, and confirming the
expired hold at instant 10 cancels it with an `expired` error. -/
theorem availability_ignores_holdExpiresAt_witness :
    (isVehicleAvailable
        (expiredHoldStore.bookings.map fun b =>
          { b with holdExpiresAt := some 999 }) 1 0 100 =
      isVehicleAvailable expiredHoldStore.bookings 1 0 100) ∧
    confirmBooking 1 false 0 10 expiredHoldStore =
      ({ expiredHoldStore with
          bookings :=
            expiredHoldStore.bookings.set 0
              { expiredHoldBooking with status := .cancelled } },
        .error .expired) :=
  ⟨availability_ignores_holdExpiresAt.1 expiredHoldStore.bookings
      (fun _ => some 999) 1 0 100,
    availability_ignores_holdExpiresAt.2 expiredHoldStore 1 false 0
      expiredHoldBooking 5 10 (by decide) (Or.inl rfl) rfl rfl (by norm_num)⟩

/-- Evaluation: scenario A spans three days. -/
theorem scenarioA_days : pricingDays scenarioA = 3 := by
  norm_num [pricingDays, scenarioA, msPerDay]
  decide

/-- Evaluation: scenario A's per-day rates after rules. -/
theorem scenarioA_rates : ratesAfterRules scenarioA = [50, 50, 50] := by
  rw [ratesAfterRules, scenarioA_days]
  simp [scenarioA, List.replicate]

/-- Evaluation: scenario B spans three days. -/
theorem scenarioB_days : pricingDays scenarioB = 3 := by
  norm_num [pricingDays, scenarioB, scenarioA, msPerDay]
  decide

/-- Evaluation: the seasonal 1.2 multiplier raises every day rate to 60. -/
theorem scenarioB_rates : ratesAfterRules scenarioB = [60, 60, 60] := by
  rw [ratesAfterRules, scenarioB_days]
  norm_num [scenarioB, scenarioA, applyPriceRule, List.replicate]

/-- Evaluation: the three-decimal input is a one-day rental. -/
theorem threeDecimalInput_days : pricingDays threeDecimalInput = 1 := by
  norm_num [pricingDays, threeDecimalInput, msPerDay]

/-- Evaluation: the three-decimal input's single unrounded day rate. -/
theorem threeDecimalInput_rates :
    ratesAfterRules threeDecimalInput = [10049/1000] := by
  rw [ratesAfterRules, threeDecimalInput_days]
  simp [threeDecimalInput, List.replicate]

/-- C5 counterexample: on a one-day rental at daily rate 10.049 the code's
result differs from the round-at-every-accumulation-boundary variant: the
code computes taxes from the unrounded subtotal (`round2(10.049 * 0.1) =
1.00`), the rounded-cadence variant gets `round2(10.05 * 0.1) = 1.01`. -/
theorem pricing_rounding_cadence_cex :
    calculatePriceBreakdown threeDecimalInput ≠
      calculatePriceBreakdownRounded threeDecimalInput ∧
    (calculatePriceBreakdown threeDecimalInput).taxes = 1 ∧
    (calculatePriceBreakdownRounded threeDecimalInput).taxes = 101/100 := by
  have h1 : (calculatePriceBreakdown threeDecimalInput).taxes = 1 := by
    simp only [calculatePriceBreakdown, pricingTaxes, pricingTaxableBase,
      pricingSubtotal, pricingAddonsTotal, addonLinePrices, pricingOneWayFee,
      pricingYoungDriverFee, pricingTaxRate]
    rw [threeDecimalInput_rates]
    norm_num [threeDecimalInput, round2]
  have h2 : (calculatePriceBreakdownRounded threeDecimalInput).taxes =
      101/100 := by
    simp only [calculatePriceBreakdownRounded, roundedTaxes, roundedTaxableBase,
      roundedSubtotal, roundedDayRates, roundedAddonsTotal,
      roundedAddonLinePrices, roundedOneWayFee, roundedYoungDriverFee,
      pricingOneWayFee, pricingYoungDriverFee, pricingTaxRate]
    rw [threeDecimalInput_rates]
    norm_num [threeDecimalInput, round2]
  refine ⟨fun hEq => ?_, h1, h2⟩
  rw [hEq, h2] at h1
  norm_num at h1

/-- C5, amended: only taxes, the total before promo, the multiplier promo
discount and the final total are rounded when computed; per-day rates,
subtotal, add-on totals, fees and the taxable base flow unrounded into the
following computations and are rounded (the per-day rates not even then)
only in the returned object.  Consequently the code agrees with the
round-at-every-accumulation-boundary cadence exactly on inputs whose
accumulated components already carry at most two decimals. -/
theorem calculatePriceBreakdown_eq_rounded_of_twoDec (inp : PricingInput)
    (h1 : ∀ r ∈ ratesAfterRules inp, TwoDec r)
    (h2 : ∀ x ∈ addonLinePrices inp, TwoDec x)
    (h3 : TwoDec inp.location.oneWayFee)
    (h4 : TwoDec inp.location.youngDriverFeePerDay)
    (h5 : ∀ p, inp.promoRule = some p → TwoDec p.flatAmount) :
    calculatePriceBreakdown inp = calculatePriceBreakdownRounded inp := by
  have hRD : roundedDayRates inp = ratesAfterRules inp := by
    rw [roundedDayRates]
    exact map_round2_of_twoDec h1
  have hSTD : TwoDec (pricingSubtotal inp) := by
    rw [pricingSubtotal]
    exact twoDec_sum h1
  have hS : roundedSubtotal inp = pricingSubtotal inp := by
    rw [roundedSubtotal, hRD, pricingSubtotal]
    exact round2_eq_self_of_twoDec (twoDec_sum h1)
  have hL : roundedAddonLinePrices inp = addonLinePrices inp := by
    rw [roundedAddonLinePrices]
    have hcomp : inp.addons.map
        (fun a => round2 (addonLinePrice (pricingDays inp) a)) =
        (inp.addons.map (addonLinePrice (pricingDays inp))).map round2 := by
      rw [List.map_map]
      rfl
    rw [hcomp]
    exact map_round2_of_twoDec h2
  have hATD : TwoDec (pricingAddonsTotal inp) := by
    rw [pricingAddonsTotal]
    exact twoDec_sum h2
  have hA : roundedAddonsTotal inp = pricingAddonsTotal inp := by
    rw [roundedAddonsTotal, hL, pricingAddonsTotal]
    exact round2_eq_self_of_twoDec (twoDec_sum h2)
  have hFTD : TwoDec (pricingOneWayFee inp) := by
    rw [pricingOneWayFee]
    split
    · exact h3
    · exact twoDec_zero
  have hF : roundedOneWayFee inp = pricingOneWayFee inp := by
    rw [roundedOneWayFee]
    exact round2_eq_self_of_twoDec hFTD
  have hYTD : TwoDec (pricingYoungDriverFee inp) := by
    have hpd : TwoDec (if inp.location.youngDriverFeePerDay = 0 then (15 : ℚ)
        else inp.location.youngDriverFeePerDay) := by
      split
      · exact ⟨1500, by norm_num⟩
      · exact h4
    simp only [pricingYoungDriverFee]
    split <;> split <;>
      first
      | exact TwoDec.mul_natCast hpd _
      | exact twoDec_zero
  have hY : roundedYoungDriverFee inp = pricingYoungDriverFee inp := by
    rw [roundedYoungDriverFee]
    exact round2_eq_self_of_twoDec hYTD
  have hBaseTD : TwoDec (pricingTaxableBase inp) := by
    rw [pricingTaxableBase]
    exact ((hSTD.add hATD).add hFTD).add hYTD
  have hBase : roundedTaxableBase inp = pricingTaxableBase inp := by
    rw [roundedTaxableBase, hS, hA, hF, hY]
    exact round2_eq_self_of_twoDec hBaseTD
  have hTax : roundedTaxes inp = pricingTaxes inp := by
    rw [roundedTaxes, hBase, pricingTaxes]
  have hTaxTD : TwoDec (pricingTaxes inp) := by
    rw [pricingTaxes]
    exact twoDec_round2 _
  have hTBP : roundedTotalBeforePromo inp = pricingTotalBeforePromo inp := by
    rw [roundedTotalBeforePromo, hS, hA, hF, hY, hTax, pricingTotalBeforePromo]
  have hPDTD : TwoDec (pricingPromoDiscount inp) := by
    rw [pricingPromoDiscount]
    rcases hp : inp.promoRule with _ | p
    · exact twoDec_zero
    · show TwoDec (if p.flatAmount ≠ 0 then p.flatAmount
        else if p.multiplier ≠ 0 then
          round2 (pricingTotalBeforePromo inp * (1 - 1 / p.multiplier))
        else 0)
      by_cases hf : p.flatAmount ≠ 0
      · rw [if_pos hf]
        exact h5 p hp
      · rw [if_neg hf]
        by_cases hm : p.multiplier ≠ 0
        · rw [if_pos hm]
          exact twoDec_round2 _
        · rw [if_neg hm]
          exact twoDec_zero
  have hPD : roundedPromoDiscount inp = pricingPromoDiscount inp := by
    rw [roundedPromoDiscount, hTBP]
    exact round2_eq_self_of_twoDec hPDTD
  have hTot : roundedTotal inp = pricingTotal inp := by
    rw [roundedTotal, hTBP, hPD, pricingTotal]
  rw [calculatePriceBreakdown, calculatePriceBreakdownRounded, hRD, hL, hS,
    hA, hF, hY, hTax, hPD, hTot, round2_eq_self_of_twoDec hSTD,
    round2_eq_self_of_twoDec hATD, round2_eq_self_of_twoDec hFTD,
    round2_eq_self_of_twoDec hYTD, round2_eq_self_of_twoDec hTaxTD,
    round2_eq_self_of_twoDec hPDTD]

/-- C5, amended, witness: scenario A's components are all two-decimal, so the
code and the rounded-cadence variant coincide on it. -/
theorem calculatePriceBreakdown_eq_rounded_of_twoDec_witness :
    calculatePriceBreakdown scenarioA = calculatePriceBreakdownRounded
      scenarioA := by
  refine calculatePriceBreakdown_eq_rounded_of_twoDec scenarioA ?_ ?_ ?_ ?_ ?_
  · intro r hr
    rw [scenarioA_rates] at hr
    simp only [List.mem_cons, List.not_mem_nil, or_false] at hr
    rcases hr with h | h | h <;> exact ⟨5000, by rw [h]; norm_num⟩
  · intro x hx
    rw [addonLinePrices] at hx
    simp [scenarioA] at hx
  · exact ⟨0, by norm_num [scenarioA]⟩
  · exact ⟨0, by norm_num [scenarioA]⟩
  · intro p hp
    simp [scenarioA] at hp

/-- C6: scenario A (daily rate 50, 3 days, no rules/add-ons/fees, 10% tax)
returns subtotal 150, taxes 15, total 165; scenario B (additionally one
seasonal rule with multiplier 1.2 overlapping the whole interval) returns
subtotal 180, taxes 18, total 198. -/
theorem calculatePriceBreakdown_scenarios :
    ((calculatePriceBreakdown scenarioA).subtotal = 150 ∧
      (calculatePriceBreakdown scenarioA).taxes = 15 ∧
      (calculatePriceBreakdown scenarioA).total = 165) ∧
    ((calculatePriceBreakdown scenarioB).subtotal = 180 ∧
      (calculatePriceBreakdown scenarioB).taxes = 18 ∧
      (calculatePriceBreakdown scenarioB).total = 198) := by
  refine ⟨⟨?_, ?_, ?_⟩, ⟨?_, ?_, ?_⟩⟩
  · simp only [calculatePriceBreakdown, pricingTotal, pricingTotalBeforePromo,
      pricingPromoDiscount, pricingTaxes, pricingTaxableBase, pricingSubtotal,
      pricingAddonsTotal, addonLinePrices, pricingOneWayFee,
      pricingYoungDriverFee, pricingTaxRate]
    rw [scenarioA_rates]
    norm_num [scenarioA, round2]
  · simp only [calculatePriceBreakdown, pricingTotal, pricingTotalBeforePromo,
      pricingPromoDiscount, pricingTaxes, pricingTaxableBase, pricingSubtotal,
      pricingAddonsTotal, addonLinePrices, pricingOneWayFee,
      pricingYoungDriverFee, pricingTaxRate]
    rw [scenarioA_rates]
    norm_num [scenarioA, round2]
  · simp only [calculatePriceBreakdown, pricingTotal, pricingTotalBeforePromo,
      pricingPromoDiscount, pricingTaxes, pricingTaxableBase, pricingSubtotal,
      pricingAddonsTotal, addonLinePrices, pricingOneWayFee,
      pricingYoungDriverFee, pricingTaxRate]
    rw [scenarioA_rates]
    norm_num [scenarioA, round2]
  · simp only [calculatePriceBreakdown, pricingTotal, pricingTotalBeforePromo,
      pricingPromoDiscount, pricingTaxes, pricingTaxableBase, pricingSubtotal,
      pricingAddonsTotal, addonLinePrices, pricingOneWayFee,
      pricingYoungDriverFee, pricingTaxRate]
    rw [scenarioB_rates]
    norm_num [scenarioB, scenarioA, round2]
  · simp only [calculatePriceBreakdown, pricingTotal, pricingTotalBeforePromo,
      pricingPromoDiscount, pricingTaxes, pricingTaxableBase, pricingSubtotal,
      pricingAddonsTotal, addonLinePrices, pricingOneWayFee,
      pricingYoungDriverFee, pricingTaxRate]
    rw [scenarioB_rates]
    norm_num [scenarioB, scenarioA, round2]
  · simp only [calculatePriceBreakdown, pricingTotal, pricingTotalBeforePromo,
      pricingPromoDiscount, pricingTaxes, pricingTaxableBase, pricingSubtotal,
      pricingAddonsTotal, addonLinePrices, pricingOneWayFee,
      pricingYoungDriverFee, pricingTaxRate]
    rw [scenarioB_rates]
    norm_num [scenarioB, scenarioA, round2]

/-- C3 counterexample: from a store with one available vehicle and no
bookings, two `createBooking` calls for the same vehicle and interval (the
conflict check ignores non-`confirmed`/`active` bookings) followed by two
admin `updateBookingStatus` calls produce two overlapping committing
bookings for the same vehicle. -/
theorem committing_overlap_reachable :
    ReachableFrom traceInit traceFinal ∧
    committingOverlapFree traceFinal.bookings = false :=
  ⟨⟨traceOps, rfl⟩, by decide⟩

/-- C3, amended: the at-most-one-committing-reservation property is not an
invariant of the exposed operations: `updateBookingStatus` writes any status
of `validStatuses` onto any existing booking with no availability or
source-state check, succeeding whatever the other bookings are, and a store
with two overlapping committing bookings for one vehicle is reachable from
the empty store. -/
theorem updateBookingStatus_unguarded :
    (∀ (st : Store) (bookingId : ℕ) (status : BookingStatus) (b : Booking),
      status ∈ validStatuses → st.bookings[bookingId]? = some b →
      updateBookingStatus bookingId status st =
        ({ st with
            bookings := st.bookings.set bookingId { b with status := status } },
          .ok ())) ∧
    ∃ st : Store, ReachableFrom traceInit st ∧
      committingOverlapFree st.bookings = false := by
  constructor
  · intro st bookingId status b h1 h2
    rw [updateBookingStatus, if_neg (not_not_intro h1), h2]
  · exact ⟨traceFinal, ⟨traceOps, rfl⟩, by decide⟩

/-- C3, amended, witness: setting the unexpired hold of `pendingHoldStore`
to `active` succeeds with the status written directly. -/
theorem updateBookingStatus_unguarded_witness :
    updateBookingStatus 0 .active pendingHoldStore =
      ({ pendingHoldStore with
          bookings := pendingHoldStore.bookings.set 0
            { baseBooking with
                startDate := 100
                endDate := 200
                status := .active
                holdExpiresAt := some 1000 } },
        .ok ()) :=
  updateBookingStatus_unguarded.1 pendingHoldStore 0 .active
    { baseBooking with
      startDate := 100
      endDate := 200
      status := .pendingHold
      holdExpiresAt := some 1000 }
    (by decide) rfl

/-- C4 counterexample: `confirmBooking` on an already-`confirmed` booking
fails with 400 and leaves the store unchanged (no booking update, no new
payment record), instead of succeeding idempotently with the existing
payment reference. -/
theorem confirmBooking_not_idempotent :
    (confirmBooking 1 false 0 0 confirmedStore).2 =
      .error ApiError.badRequest ∧
    (confirmBooking 1 false 0 0 confirmedStore).1 = confirmedStore :=
  ⟨rfl, rfl⟩

/-- C4, amended: a second `confirmBooking` call on an already-`confirmed`
reservation is rejected with the state-conflict error (400, booking is not
in hold state); the store is unchanged, so no second payment record is
created and the booking keeps its state — but no payment reference is
returned and the call fails rather than being an idempotent no-op. -/
theorem confirmBooking_on_confirmed_errors (st : Store) (uid : ℕ)
    (isAdmin : Bool) (bookingId : ℕ) (b : Booking) (now : ℤ)
    (h1 : st.bookings[bookingId]? = some b)
    (h2 : b.userId = uid ∨ isAdmin = true)
    (h3 : b.status = .confirmed) :
    confirmBooking uid isAdmin bookingId now st =
      (st, .error .badRequest) := by
  have howner : ¬(b.userId ≠ uid ∧ isAdmin = false) := by
    rcases h2 with h | h
    · exact fun hc => hc.1 h
    · intro hc
      rw [h] at hc
      exact absurd hc.2 (by simp)
  have hstat : b.status ≠ .pendingHold := by
    rw [h3]
    exact fun h => nomatch h
  simp only [confirmBooking, h1]
  rw [if_neg howner, if_pos hstat]

/-- C4, amended, witness: the concrete already-confirmed store. -/
theorem confirmBooking_on_confirmed_errors_witness :
    confirmBooking 1 false 0 5 confirmedStore =
      (confirmedStore, .error .badRequest) :=
  confirmBooking_on_confirmed_errors confirmedStore 1 false 0
    { baseBooking with status := .confirmed } 5 rfl (Or.inl rfl) rfl

/-- C7: for a booking in a cancellable status owned by the caller,
`cancelBooking` charges half the total (refunding the other half) when the
cancellation instant is at or within 48 hours of the contracted start, and
charges nothing (refunding the full total) when it is more than 48 hours
before the start. -/
theorem cancelBooking_fee_policy (st : Store) (uid bookingId : ℕ)
    (b : Booking) (now : ℤ)
    (h1 : st.bookings[bookingId]? = some b)
    (h2 : b.userId = uid)
    (h3 : ¬(b.status = .completed ∨ b.status = .cancelled ∨
      b.status = .active)) :
    (((b.startDate - now : ℤ) : ℚ) / (msPerHour : ℚ) ≤ 48 →
      (cancelBooking uid bookingId now st).2 =
        .ok (b.totalPrice * (1/2), b.totalPrice * (1/2))) ∧
    (48 < ((b.startDate - now : ℤ) : ℚ) / (msPerHour : ℚ) →
      (cancelBooking uid bookingId now st).2 = .ok (0, b.totalPrice)) := by
  have hu : ¬(b.userId ≠ uid) := not_not_intro h2
  constructor
  · intro hle
    simp only [cancelBooking, h1]
    rw [if_neg hu, if_neg h3]
    simp only [if_pos hle]
    have hr : b.totalPrice - b.totalPrice * (1/2) = b.totalPrice * (1/2) := by
      ring
    rw [hr]
  · intro hgt
    have hnle : ¬(((b.startDate - now : ℤ) : ℚ) / (msPerHour : ℚ) ≤ 48) :=
      not_le.mpr hgt
    simp only [cancelBooking, h1]
    rw [if_neg hu, if_neg h3]
    simp only [if_neg hnle]

/-- C7, witness: cancelling 24 hours before the contracted start on a 200
total yields fee 100 and refund 100. -/
theorem cancelBooking_fee_policy_witness :
    (cancelBooking 1 0 0 cancelStore).2 = .ok (100, 100) := by
  have h := (cancelBooking_fee_policy cancelStore 1 0
    { baseBooking with
      startDate := 24 * 3600000
      endDate := 48 * 3600000 }
    0 rfl rfl (by decide)).1 (by norm_num [msPerHour])
  rw [h]
  norm_num [baseBooking]

/-- C8: for an active booking, `returnChecklist` charges
`lateFee = ceil(hours past the contracted end) * (lateFeePerHour || 10)`
when the return is late and `0` otherwise, computes the mileage, fuel and
damage components, and replaces the booking's total with
`finalTotal = originalTotalPrice + lateFee + extraMileageCost + fuelCost +
damageCost`, completing the booking. -/
theorem returnChecklist_settlement (st : Store) (uid : ℕ) (isAdmin : Bool)
    (bookingId : ℕ) (b : Booking) (now : ℤ) (odometer fuelLevel : Option ℚ)
    (damage : Bool) (damageCost : ℚ)
    (h1 : st.bookings[bookingId]? = some b)
    (h2 : b.userId = uid ∨ isAdmin = true)
    (h3 : b.status = .active) :
    ∃ s : Settlement,
      (returnChecklist uid isAdmin bookingId now odometer fuelLevel damage
          damageCost st).2 = .ok s ∧
      s.lateFee = (if b.endDate < now then
          ((⌈((now - b.endDate : ℤ) : ℚ) / (msPerHour : ℚ)⌉ : ℤ) : ℚ) *
            (match st.locations[b.locationPickupId]? with
             | some l => if l.lateFeePerHour = 0 then 10 else l.lateFeePerHour
             | none => 10)
        else 0) ∧
      s.extraMileageCost = (match b.pickupOdometer, odometer with
        | some po, some od =>
            if po ≠ 0 ∧ od ≠ 0 then
              max 0 (od - po -
                  ((max 1 ⌈((b.endDate - b.startDate : ℤ) : ℚ) /
                    (msPerDay : ℚ)⌉ : ℤ) : ℚ) * 100) *
                (match st.locations[b.locationPickupId]? with
                 | some l => if l.extraMileageRate = 0 then 1/2
                     else l.extraMileageRate
                 | none => 1/2)
            else 0
        | _, _ => 0) ∧
      s.fuelCost = (match fuelLevel with
        | some fl =>
            if fl < 1 then
              (1 - fl) * (match st.locations[b.locationPickupId]? with
                | some l => if l.fuelPricePerGallon = 0 then 4
                    else l.fuelPricePerGallon
                | none => 4)
            else 0
        | none => 0) ∧
      s.damageCost = (if damage then damageCost else 0) ∧
      s.finalTotal = b.totalPrice +
        (s.lateFee + s.extraMileageCost + s.fuelCost + s.damageCost) ∧
      (returnChecklist uid isAdmin bookingId now odometer fuelLevel damage
          damageCost st).1.bookings =
        st.bookings.set bookingId
          { b with status := .completed, totalPrice := s.finalTotal } := by
  have howner : ¬(b.userId ≠ uid ∧ isAdmin = false) := by
    rcases h2 with h | h
    · exact fun hc => hc.1 h
    · intro hc
      rw [h] at hc
      exact absurd hc.2 (by simp)
  have hstat : ¬(b.status ≠ .active) := by
    rw [h3]
    exact fun h => h rfl
  simp only [returnChecklist, h1]
  rw [if_neg howner, if_neg hstat]
  exact ⟨_, rfl, rfl, rfl, rfl, rfl, rfl, rfl⟩

/-- C8, witness: a return 2 hours past the contracted end at the default
10/hour rate yields a late fee of 20 folded into a final total of 220. -/
theorem returnChecklist_settlement_witness :
    ∃ s : Settlement,
      (returnChecklist 1 false 0 (2 * 3600000) none none false 0
          returnStore).2 = .ok s ∧
      s.lateFee = 20 ∧ s.extraMileageCost = 0 ∧ s.fuelCost = 0 ∧
      s.damageCost = 0 ∧ s.finalTotal = 220 := by
  obtain ⟨s, hok, hlf, hex, hfc, hdc, hft, hupd⟩ :=
    returnChecklist_settlement returnStore 1 false 0
      { baseBooking with
        startDate := -86400000
        endDate := 0
        status := .active }
      (2 * 3600000) none none false 0 rfl (Or.inl rfl) rfl
  have hlf20 : s.lateFee = 20 := by
    rw [hlf]
    norm_num [baseBooking, returnStore, msPerHour]
  have hex0 : s.extraMileageCost = 0 := by
    rw [hex]
    simp [baseBooking]
  have hfc0 : s.fuelCost = 0 := by
    rw [hfc]
  have hdc0 : s.damageCost = 0 := by
    rw [hdc]
    simp
  refine ⟨s, hok, hlf20, hex0, hfc0, hdc0, ?_⟩
  rw [hft, hlf20, hex0, hfc0, hdc0]
  norm_num [baseBooking]

/-- C9 counterexample: the availability resolver itself reports vehicle 0 as
unavailable for the new interval (a `confirmed` booking overlaps it), yet
`modifyBooking` on the `pending` booking succeeds instead of failing with a
conflict: it performs no availability re-check. -/
theorem modifyBooking_ignores_conflicts :
    isVehicleAvailable modifyStore.bookings 0 (20 * 86400000)
      (25 * 86400000) = false ∧
    (modifyBooking 1 false 0 (some (20 * 86400000)) (some (25 * 86400000))
      none none 0 modifyStore).2 = .ok () :=
  ⟨by decide, rfl⟩

/-- C9, amended: for a booking in `pending`/`confirmed`/`pending_hold`,
`modifyBooking` with new dates rejects an interval whose end is not strictly
after its start, leaves the status unchanged, and recomputes
`subtotal = days * dailyRate`, `taxes = 9%`, `fees = 5` and the total — and
it succeeds for every store, i.e. without any availability re-check against
the new interval. -/
theorem modifyBooking_recomputes (st : Store) (uid : ℕ) (isAdmin : Bool)
    (bookingId : ℕ) (b : Booking) (v : Vehicle) (ns ne now : ℤ)
    (h1 : st.bookings[bookingId]? = some b)
    (h2 : b.userId = uid ∨ isAdmin = true)
    (h3 : b.status ∈ [BookingStatus.pending, .confirmed, .pendingHold])
    (h4 : st.vehicles[b.vehicleId]? = some v)
    (h5 : ns < ne) (h6 : now ≤ ns) :
    (∀ ns' ne' : ℤ, ne' ≤ ns' →
      modifyBooking uid isAdmin bookingId (some ns') (some ne') none none
        now st = (st, .error .badRequest)) ∧
    modifyBooking uid isAdmin bookingId (some ns) (some ne) none none now
        st =
      ({ st with
          bookings := st.bookings.set bookingId
            { b with
                startDate := ns
                endDate := ne
                subtotal :=
                  ((⌈((ne - ns : ℤ) : ℚ) / (msPerDay : ℚ)⌉.toNat : ℕ) : ℚ) *
                    v.dailyRate
                taxes :=
                  ((⌈((ne - ns : ℤ) : ℚ) / (msPerDay : ℚ)⌉.toNat : ℕ) : ℚ) *
                    v.dailyRate * (9/100)
                fees := 5
                totalPrice :=
                  ((⌈((ne - ns : ℤ) : ℚ) / (msPerDay : ℚ)⌉.toNat : ℕ) : ℚ) *
                      v.dailyRate +
                    ((⌈((ne - ns : ℤ) : ℚ) / (msPerDay : ℚ)⌉.toNat : ℕ) : ℚ) *
                      v.dailyRate * (9/100) + 5 } },
        .ok ()) := by
  have howner : ¬(b.userId ≠ uid ∧ isAdmin = false) := by
    rcases h2 with h | h
    · exact fun hc => hc.1 h
    · intro hc
      rw [h] at hc
      exact absurd hc.2 (by simp)
  have hstat : ¬(b.status ∉ [BookingStatus.pending, .confirmed, .pendingHold]) :=
    not_not_intro h3
  constructor
  · intro ns' ne' hle
    simp only [modifyBooking, h1, Option.getD_some, Option.isSome_some]
    rw [if_neg howner, if_neg hstat, if_pos (by simp), if_pos hle]
  · simp only [modifyBooking, h1, h4, Option.getD_some, Option.getD_none,
      Option.isSome_some, Option.isSome_none]
    rw [if_neg howner, if_neg hstat, if_pos (by simp),
      if_neg (not_le.mpr h5), if_neg (not_lt.mpr h6),
      if_neg (by simp), if_neg (by simp)]

/-- C9, amended, witness: modifying the pending booking of `modifyStore` to
days 20–25 succeeds with recomputed price fields and unchanged status. -/
theorem modifyBooking_recomputes_witness :
    modifyBooking 1 false 0 (some (20 * 86400000)) (some (25 * 86400000))
        none none 0 modifyStore =
      ({ modifyStore with
          bookings := modifyStore.bookings.set 0
            { baseBooking with
                startDate := 20 * 86400000
                endDate := 25 * 86400000
                subtotal :=
                  ((⌈((25 * 86400000 - 20 * 86400000 : ℤ) : ℚ) /
                    (msPerDay : ℚ)⌉.toNat : ℕ) : ℚ) * 50
                taxes :=
                  ((⌈((25 * 86400000 - 20 * 86400000 : ℤ) : ℚ) /
                    (msPerDay : ℚ)⌉.toNat : ℕ) : ℚ) * 50 * (9/100)
                fees := 5
                totalPrice :=
                  ((⌈((25 * 86400000 - 20 * 86400000 : ℤ) : ℚ) /
                      (msPerDay : ℚ)⌉.toNat : ℕ) : ℚ) * 50 +
                    ((⌈((25 * 86400000 - 20 * 86400000 : ℤ) : ℚ) /
                      (msPerDay : ℚ)⌉.toNat : ℕ) : ℚ) * 50 * (9/100) + 5 } },
        .ok ()) :=
  (modifyBooking_recomputes modifyStore 1 false 0
    { baseBooking with
      startDate := 10 * 86400000
      endDate := 11 * 86400000 }
    { dailyRate := 50, status := .available }
    (20 * 86400000) (25 * 86400000) 0 rfl (Or.inl rfl) (by decide) rfl
    (by norm_num) (by norm_num)).2

/-- C10: `createBooking`'s conflict filter considers only `confirmed` and
`active` bookings: when no such booking overlaps, it succeeds and appends a
new `pending` booking for the requested interval even though an overlapping
unexpired `pending_hold` exists for the vehicle. -/
theorem createBooking_ignores_pendingHold (st : Store)
    (uid vehicleId locPick locDrop : ℕ) (s e now : ℤ) (v : Vehicle)
    (h1 : now ≤ s ∧ s < e)
    (h2 : st.vehicles[vehicleId]? = some v)
    (h3 : v.status = .available)
    (h4 : (st.locations[locPick]?).isSome = true)
    (h5 : (st.locations[locDrop]?).isSome = true)
    (h6 : ∀ b ∈ st.bookings, b.vehicleId = vehicleId →
      b.startDate ≤ e → s ≤ b.endDate →
      ¬(b.status = .confirmed ∨ b.status = .active))
    (h7 : ∃ b ∈ st.bookings, b.vehicleId = vehicleId ∧
      b.status = .pendingHold ∧ b.startDate ≤ e ∧ s ≤ b.endDate) :
    createBooking uid vehicleId locPick locDrop s e now st =
      ({ st with
          bookings := st.bookings ++
            [{ userId := uid, vehicleId := vehicleId,
               locationPickupId := locPick, locationDropoffId := locDrop,
               startDate := s, endDate := e, subtotal := 0, taxes := 0,
               fees := 0, totalPrice := v.dailyRate, status := .pending,
               paymentStatus := .pending, holdExpiresAt := none,
               pickupOdometer := none }] },
        .ok st.bookings.length) := by
  have hfilter : st.bookings.filter (fun b =>
      b.vehicleId == vehicleId
        && decide (b.status = .confirmed ∨ b.status = .active)
        && decide (b.startDate ≤ e) && decide (s ≤ b.endDate)) = [] := by
    rw [List.filter_eq_nil_iff]
    intro b hb
    simp only [Bool.and_eq_true, beq_iff_eq, decide_eq_true_eq, not_and]
    rintro ⟨⟨hveh, hstatus⟩, hd1⟩ hd2
    exact h6 b hb hveh hd1 hd2 hstatus
  have hvs : ¬(v.status ≠ VehicleStatus.available) := by
    rw [h3]
    exact fun h => h rfl
  obtain ⟨lp, hlpv⟩ := Option.isSome_iff_exists.mp h4
  obtain ⟨ld, hldv⟩ := Option.isSome_iff_exists.mp h5
  simp only [createBooking, h2, hlpv, hldv, Option.isNone_some, hfilter,
    List.length_nil, lt_self_iff_false, if_false]
  rw [if_neg (not_not_intro h1), if_neg hvs]
  simp

/-- C10, witness: with one unexpired overlapping `pending_hold` on vehicle 0,
`createBooking` succeeds and appends a `pending` booking. -/
theorem createBooking_ignores_pendingHold_witness :
    createBooking 2 0 0 0 120 180 0 pendingHoldStore =
      ({ pendingHoldStore with
          bookings := pendingHoldStore.bookings ++
            [{ userId := 2, vehicleId := 0, locationPickupId := 0,
               locationDropoffId := 0, startDate := 120, endDate := 180,
               subtotal := 0, taxes := 0, fees := 0, totalPrice := 50,
               status := .pending, paymentStatus := .pending,
               holdExpiresAt := none, pickupOdometer := none }] },
        .ok 1) :=
  createBooking_ignores_pendingHold pendingHoldStore 2 0 0 0 120 180 0
    { dailyRate := 50, status := .available }
    (by norm_num) rfl rfl rfl rfl (by decide) (by decide)

end CarHive
